import Mathlib

/-!
Verification of the Data-analyst-agent repository: a shallow embedding of
`src/code_executor.py` (the Docker sandbox runner `run_code_in_sandbox`) and of
`src/main.py` (the three-stage orchestration endpoint `create_analysis`),
together with theorems settling the frozen claims about them.

Modelling conventions:
* The Docker daemon is external to the repository, so each fallible Docker call
  the runner makes (`docker.from_env`, `client.images.get`,
  `client.containers.get`, `remove`, `client.containers.run`, `container.wait`,
  `container.logs`, the final `container.remove`) is an oracle supplied by a
  `DockerBehavior`: either a value or a raised exception carrying its `str(e)`
  description. `docker.from_env()` (line 14) runs before the `try` begins at
  line 24, so an exception it raises escapes the function: the outcome of a
  call is therefore an `Except` - `.error` a raised exception reaching the
  caller, `.ok` a returned result dictionary.
* `World` tracks whether a container with the reserved name
  `data-analyst-agent-sandbox` exists in the daemon; `containers.get` finds the
  container exactly when it exists (raising `NotFound` otherwise, which the
  source catches with `pass`), and `containers.run` would raise a name-conflict
  error if the name were still taken at creation time.
* Docker reports a container's terminal `StatusCode` as the (non-negative)
  process exit status; `container.wait()` therefore yields an
  `Except String (Option Nat)` - `none` models a wait dictionary without the
  `StatusCode` key, for which the source falls back to `0`.
* The orchestrator's workspace is modelled by the two artifact files it
  consults (`workspace/scraped_table.html` and `workspace/films.csv`) together
  with the rest of the read-write mounted directory's contents (`extra`, a
  name-content file store the executed code can read and write and which the
  orchestrator never deletes); the LLM (`model.generate_content`), the sandbox
  execution of generated code, and `json.loads` are collaborators supplied by
  an `OrchestratorEnv`.
-/

/-- ExecutionResult: the dictionary `run_code_in_sandbox` returns:
`{"stdout": ..., "stderr": ..., "exit_code": ...}` (code_executor.py lines 48 and 52). -/
structure RunResult where
  stdout : String
  stderr : String
  exit_code : Int
deriving DecidableEq, Repr

/-- Daemon-side state threaded through a run: whether a container with the
reserved name `data-analyst-agent-sandbox` currently exists. -/
structure World where
  containerExists : Bool
deriving DecidableEq, Repr

/-- One invocation's oracle for every fallible Docker call the runner makes,
in source order (code_executor.py lines 14-57). `.error e` models the call
raising an exception whose `str(e)` is `e`. `fromEnv` is the client
construction `docker.from_env()` at line 14 - the one call made before the
`try` begins at line 24, so nothing in the function catches its exception.
`containersGetErr` is a non-NotFound error raised by the lookup of an existing
container (when the container is absent the lookup raises `NotFound`, which
line 30 catches). -/
structure DockerBehavior where
  fromEnv : Except String Unit
  imagesGet : Except String Unit
  containersGetErr : Option String
  staleRemove : Except String Unit
  create : Except String Unit
  wait : Except String (Option Nat)
  logsStdout : Except String String
  logsStderr : Except String String
  teardown : Except String Unit

/-- The keyword arguments of the `client.containers.run` call
(code_executor.py lines 36-43). -/
structure CreateConfig where
  image : String
  command : List String
  name : String
  detach : Bool
  remove : Bool
  hostPath : String
  bindPath : String
  mode : String
deriving DecidableEq, Repr

/-- Observable events of one invocation: how often the `finally` block called
`container.remove(force=True)`, whether a container object was created, whether
`containers.run` hit a name conflict, and the configuration it was called with
(if it was called at all). -/
structure RunTrace where
  teardownAttempts : Nat
  containerCreated : Bool
  conflict : Bool
  createConfig : Option CreateConfig
deriving DecidableEq, Repr

/-- Observable outcome of one `run_code_in_sandbox` call: what the caller
receives (`.ok` the returned result dictionary, `.error e` an exception that
escaped the function), the final daemon state, and the trace. -/
structure RunOutcome where
  result : Except String RunResult
  world : World
  trace : RunTrace
deriving Repr

/-- The `container_name` literal (code_executor.py line 15). -/
def container_name : String := "data-analyst-agent-sandbox"

/-- The `python_image` literal (code_executor.py line 16). -/
def python_image : String := "data-analyst-image"

/-- The hard-coded raw-string host path (code_executor.py line 21). -/
def workspace_path : String :=
  "C:\\Users\\23f20\\OneDrive\\Documents\\data analyst agent\\workspace"

/-- The fixed in-container mount point (code_executor.py line 42). -/
def bind_path : String := "/app/workspace"

/-- Description of the name-conflict error `containers.run` would raise if the
reserved name were still taken at creation time. -/
def conflict_error : String := "409 Client Error: Conflict - container name already in use"

/-- The result returned by the top-level `except` clause
(code_executor.py line 52): `{"stdout": "", "stderr": str(e), "exit_code": -1}`. -/
def failRes (msg : String) : RunResult := ⟨"", msg, -1⟩

/-- The keyword arguments of the `client.containers.run` call for a given code
string (code_executor.py lines 34-43): the code is passed as the process
argument `["python", "-c", code]` and the hard-coded host path is bound
read-write at `/app/workspace`. -/
def sandboxConfig (code : String) : CreateConfig :=
  ⟨python_image, ["python", "-c", code], container_name, true, false,
    workspace_path, bind_path, "rw"⟩

/-- Intermediate state of the `try` body before the `finally` clause runs. -/
structure BodyOut where
  result : RunResult
  world : World
  created : Bool
  conflict : Bool
  config : Option CreateConfig

/-- The `try` body of `run_code_in_sandbox` (code_executor.py lines 24-52):
image check, stale-container reclaim (`NotFound` is passed over), container
creation, wait, and the two separate log retrievals, with every raised
exception converted by the top-level `except` into `failRes`. -/
def runBody (w : World) (b : DockerBehavior) (code : String) : BodyOut :=
  match b.imagesGet with
  | .error e => ⟨failRes e, w, false, false, none⟩
  | .ok _ =>
    let stale : Except String World :=
      if w.containerExists then
        match b.containersGetErr with
        | some e => .error e
        | none =>
          match b.staleRemove with
          | .ok _ => .ok ⟨false⟩
          | .error e => .error e
      else .ok w
    match stale with
    | .error e => ⟨failRes e, w, false, false, none⟩
    | .ok w1 =>
      if w1.containerExists then
        ⟨failRes conflict_error, w1, false, true, some (sandboxConfig code)⟩
      else
        match b.create with
        | .error e => ⟨failRes e, w1, false, false, some (sandboxConfig code)⟩
        | .ok _ =>
          match b.wait with
          | .error e => ⟨failRes e, ⟨true⟩, true, false, some (sandboxConfig code)⟩
          | .ok st =>
            match b.logsStdout with
            | .error e => ⟨failRes e, ⟨true⟩, true, false, some (sandboxConfig code)⟩
            | .ok outText =>
              match b.logsStderr with
              | .error e => ⟨failRes e, ⟨true⟩, true, false, some (sandboxConfig code)⟩
              | .ok errText =>
                ⟨⟨outText, errText, Int.ofNat (st.getD 0)⟩, ⟨true⟩, true, false,
                  some (sandboxConfig code)⟩

/-- Shallow embedding of `run_code_in_sandbox` (code_executor.py lines 9-59):
`client = docker.from_env()` (line 14) runs before the `try` begins at line 24,
so an exception it raises escapes the function (`.error`); with the client
constructed, the `try` body runs and the `finally` clause attempts
`container.remove(force=True)` exactly when a container object was created,
only logging a teardown failure (the result is returned unchanged). -/
def run_code_in_sandbox (w : World) (b : DockerBehavior) (code : String) : RunOutcome :=
  match b.fromEnv with
  | .error e => ⟨.error e, w, ⟨0, false, false, none⟩⟩
  | .ok _ =>
    let body := runBody w b code
    if body.created then
      match b.teardown with
      | .ok _ => ⟨.ok body.result, ⟨false⟩, ⟨1, true, body.conflict, body.config⟩⟩
      | .error _ => ⟨.ok body.result, body.world, ⟨1, true, body.conflict, body.config⟩⟩
    else ⟨.ok body.result, body.world, ⟨0, false, body.conflict, body.config⟩⟩

/-- Whether one of the Docker calls inside the `try` body raises, i.e. whether
the top-level `except Exception` clause (code_executor.py lines 50-52) fires
(the client construction at line 14, which that clause does not cover, is not
counted here). -/
def internalFailure (w : World) (b : DockerBehavior) : Bool :=
  (match b.imagesGet with | .error _ => true | .ok _ => false) ||
  (w.containerExists &&
    ((match b.containersGetErr with | some _ => true | none => false) ||
     (match b.staleRemove with | .error _ => true | .ok _ => false))) ||
  (match b.create with | .error _ => true | .ok _ => false) ||
  (match b.wait with | .error _ => true | .ok _ => false) ||
  (match b.logsStdout with | .error _ => true | .ok _ => false) ||
  (match b.logsStderr with | .error _ => true | .ok _ => false)

/-- Description of the first exception raised after the stale-reclaim step. -/
def restFailMsg (b : DockerBehavior) : String :=
  match b.create with
  | .error e => e
  | .ok _ =>
    match b.wait with
    | .error e => e
    | .ok _ =>
      match b.logsStdout with
      | .error e => e
      | .ok _ =>
        match b.logsStderr with
        | .error e => e
        | .ok _ => ""

/-- Description of the first exception an invocation raises (the `str(e)` the
top-level `except` clause stores in `stderr`). -/
def failMsg (w : World) (b : DockerBehavior) : String :=
  match b.imagesGet with
  | .error e => e
  | .ok _ =>
    if w.containerExists then
      match b.containersGetErr with
      | some e => e
      | none =>
        match b.staleRemove with
        | .error e => e
        | .ok _ => restFailMsg b
    else restFailMsg b

/-! Orchestrator model (`src/main.py`). -/

/-- The read-write mounted workspace directory as the orchestrator and the
executed code see it: whether each of the two artifact files the orchestrator
consults exists (`workspace/scraped_table.html` and `workspace/films.csv`,
main.py lines 45-47), plus the rest of the directory's contents (`extra`: the
other files as name-content pairs), which the executed code can read and write
and which the orchestrator never deletes. -/
structure Workspace where
  scrapedHtml : Bool
  filmsCsv : Bool
  extra : List (String × String)
deriving DecidableEq, Repr

/-- The JSONResponse the endpoint returns: either the parsed final answer with
the default status 200, or a `{"error": message}` object with an explicit
status code. -/
inductive PipelineResponse (J : Type) where
  | success (body : J)
  | failure (status : Nat) (error : String)
deriving DecidableEq, Repr

/-- Collaborators of `create_analysis`: the LLM (`model.generate_content`,
prompt text to response text), the sandbox execution of a generated code string
against the workspace (its `RunResult` and the workspace it leaves behind), and
`json.loads` on the final stdout (`none` models a `JSONDecodeError`). -/
structure OrchestratorEnv (J : Type) where
  gen : String → String
  sem : String → Workspace → RunResult × Workspace
  loads : String → Option J

/-- The `workspace_dir` literal of the orchestrator (main.py line 45). -/
def workspace_dir : String := "workspace"

/-- The scraped-page URL (main.py line 44). -/
def url : String := "https://en.wikipedia.org/wiki/List_of_highest-grossing_films"

/-- The prompt template `create_code_generation_prompt` (main.py lines 23-37). -/
def create_code_generation_prompt (task_description : String) (context : String) : String :=
  "\nYou are an expert Python data scientist. Your task is to write a Python script to perform a specific task.\nAll file operations must use the '/app/workspace/' directory.\n\nContext from previous steps:\n"
    ++ context
    ++ "\n\nYour current task:\n'"
    ++ task_description
    ++ "'\n\nWrite only the Python code for this task. Do not use markdown.\nYour script's final output to stdout should be a single-line JSON string describing the result.\n"

/-- Stage 1 task description (main.py lines 59-63). -/
def sampler_task : String :=
  "Download the page at '" ++ url
    ++ "' using requests with a 'User-Agent' header. Find the main data table (the one with 'Rank' and 'Title' in its headers). Save the full outer HTML of this table to '/app/workspace/scraped_table.html'."

/-- Stage 2 task description (main.py lines 76-82). -/
def scraper_task : String :=
  "Read the HTML from '/app/workspace/scraped_table.html'. Parse it to a pandas DataFrame. CRITICAL: Before saving, you must aggressively clean the 'Worldwide gross' column. First, remove specific leading footnote characters that are sometimes attached to the numbers (e.g., 'T', 'F', 'SM', 'F8'). After removing those, then remove all other non-numeric characters like '$', ',', '#', '[', ']', and extra spaces. Finally, save the fully cleaned DataFrame (Rank, Peak, Title, Worldwide gross, Year) to a CSV file at '/app/workspace/films.csv'."

/-- Stage 3 task description, embedding the uploaded question
(main.py lines 96-104). -/
def analysis_task (question_content : String) : String :=
  "The film data is at '/app/workspace/films.csv'. Load it into a pandas DataFrame. The columns should already be clean, but as a safeguard, ensure 'Worldwide gross', 'Year', and 'Peak' are numeric types (`pd.to_numeric` with `errors='coerce'`). Drop any rows with NaN values. The column with the film names is 'Title'. Now, write a single script to produce the final answers for the user's request.\n\nUser Request:\n---\n"
    ++ question_content
    ++ "\n---\nThe script's final output to stdout MUST be a single line containing a valid JSON array with exactly 4 elements matching the user's questions. The 4th element must be a base64-encoded PNG image as a data URI string."

/-- The stage 1 prompt (main.py line 64; the context argument defaults to ""). -/
def sampler_prompt : String := create_code_generation_prompt sampler_task ""

/-- The stage 2 prompt (main.py line 85). -/
def scraper_prompt : String := create_code_generation_prompt scraper_task ""

/-- The stage 3 prompt (main.py line 105). -/
def analysis_prompt (question_content : String) : String :=
  create_code_generation_prompt (analysis_task question_content) ""

/-- Stage 1 error body (main.py line 70). -/
def stage1_error : String := "Stage 1 (sampler) failed to create the output file."

/-- Stage 2 error body (main.py line 92). -/
def stage2_error : String := "Stage 2 (scraper) failed to create the final CSV file."

/-- Stage 3 error body (main.py line 112). -/
def stage3_error : String := "Stage 3 (analysis) failed."

/-- Final-parse error body (main.py line 121). -/
def parse_error : String := "Failed to parse the final JSON array from the analysis script."

/-! Code-fence stripping. The source normalizes each LLM response with
`response.text.replace("```python", "").replace("```", "").strip()`
(main.py lines 66, 87, 107). `pyReplaceF` gives Python's `str.replace`
semantics (leftmost, non-overlapping) on character lists via an explicit
fuel argument so that it computes by structural recursion, and `pyStrip`
is Python's two-sided whitespace `strip` (ASCII whitespace). -/

/-- Python `str.replace` on character lists, fuelled: replace each leftmost
non-overlapping occurrence of `p` by `r`. The fuel is at least the length of
the scanned list whenever `pyReplace` calls it. -/
def pyReplaceF (p r : List Char) : Nat → List Char → List Char
  | _, [] => []
  | 0, s => s
  | fuel + 1, c :: s =>
    if p ≠ [] ∧ p <+: (c :: s) then r ++ pyReplaceF p r fuel ((c :: s).drop p.length)
    else c :: pyReplaceF p r fuel s

/-- Python `str.replace` for a non-empty pattern: replace every leftmost
non-overlapping occurrence of `p` in `s` by `r`. -/
def pyReplace (p r s : List Char) : List Char := pyReplaceF p r s.length s

/-- The three-backtick code-fence marker, as the source writes it. -/
def fence : List Char := "```".toList

/-- The opening fence marker with the language tag, as the source writes it. -/
def fencePy : List Char := "```python".toList

/-- A backtick character, named to keep proofs readable. -/
def bq : Char := Char.ofNat 96

/-- The whitespace class of Python's `str.strip()` (its ASCII part:
space, tab, newline, carriage return, vertical tab, form feed). -/
def isPySpace (c : Char) : Bool :=
  c = ' ' || c = '\t' || c = '\n' || c = '\r' || c = Char.ofNat 11 || c = Char.ofNat 12

/-- Python `str.strip()` on character lists: drop whitespace from both ends. -/
def pyStrip (s : List Char) : List Char :=
  ((s.dropWhile isPySpace).reverse.dropWhile isPySpace).reverse

/-- The source's fence-stripping normalization on character lists:
`.replace("```python", "").replace("```", "").strip()`. -/
def stripCodeL (s : List Char) : List Char :=
  pyStrip (pyReplace fence [] (pyReplace fencePy [] s))

/-- The source's fence-stripping normalization applied to an LLM response
before it is passed to `run_code_in_sandbox` (main.py lines 66, 87, 107). -/
def stripCode (s : String) : String := (stripCodeL s.toList).asString

/-- The workspace cleanup at the start of each request (main.py lines 49-53):
each of the two artifact files is removed if it exists, so both are absent
afterwards; no other workspace file is touched. -/
def clean_workspace (fs : Workspace) : Workspace := ⟨false, false, fs.extra⟩

/-- Stage 1 execution: the stripped sampler code run against the cleaned
workspace (main.py lines 64-67). -/
def stage1Run {J : Type} (env : OrchestratorEnv J) (fs0 : Workspace) :
    RunResult × Workspace :=
  env.sem (stripCode (env.gen sampler_prompt)) (clean_workspace fs0)

/-- Stage 2 execution: the stripped scraper code run against the workspace
stage 1 left behind (main.py lines 85-88). -/
def stage2Run {J : Type} (env : OrchestratorEnv J) (fs0 : Workspace) :
    RunResult × Workspace :=
  env.sem (stripCode (env.gen scraper_prompt)) (stage1Run env fs0).2

/-- Stage 3 execution: the stripped analysis code run against the workspace
stage 2 left behind (main.py lines 105-108). -/
def stage3Run {J : Type} (env : OrchestratorEnv J) (q : String) (fs0 : Workspace) :
    RunResult × Workspace :=
  env.sem (stripCode (env.gen (analysis_prompt q))) (stage2Run env fs0).2

/-- The stage 1 failure condition (main.py line 69): non-empty stderr, or the
expected output file `scraped_table.html` absent. The exit code is not read. -/
def stage1Failed {J : Type} (env : OrchestratorEnv J) (fs0 : Workspace) : Prop :=
  (stage1Run env fs0).1.stderr ≠ "" ∨ (stage1Run env fs0).2.scrapedHtml = false

/-- The stage 2 failure condition (main.py line 90): non-empty stderr, or the
expected output file `films.csv` absent. -/
def stage2Failed {J : Type} (env : OrchestratorEnv J) (fs0 : Workspace) : Prop :=
  (stage2Run env fs0).1.stderr ≠ "" ∨ (stage2Run env fs0).2.filmsCsv = false

/-- The stage 3 failure condition (main.py line 110): non-empty stderr (stage 3
has no expected output file). -/
def stage3Failed {J : Type} (env : OrchestratorEnv J) (q : String) (fs0 : Workspace) : Prop :=
  (stage3Run env q fs0).1.stderr ≠ ""

/-- Response, final workspace, and the code strings passed to the sandbox
runner (in order) by one request. -/
structure PipelineRun (J : Type) where
  response : PipelineResponse J
  workspace : Workspace
  executedCodes : List String
deriving DecidableEq, Repr

/-- Shallow embedding of the endpoint `create_analysis` (main.py lines 40-121):
clean the workspace, then run the three generate-strip-execute stages in
sequence, aborting with the stage-specific 500 error as soon as a stage's
failure condition holds, and finally parse the last stage's stdout as JSON,
forwarding the parsed value on success and answering the parse error with
status 500 on failure. -/
def create_analysis {J : Type} (env : OrchestratorEnv J) (q : String) (fs0 : Workspace) :
    PipelineRun J :=
  let code1 := stripCode (env.gen sampler_prompt)
  let s1 := stage1Run env fs0
  if s1.1.stderr ≠ "" ∨ s1.2.scrapedHtml = false then
    ⟨.failure 500 stage1_error, s1.2, [code1]⟩
  else
    let code2 := stripCode (env.gen scraper_prompt)
    let s2 := stage2Run env fs0
    if s2.1.stderr ≠ "" ∨ s2.2.filmsCsv = false then
      ⟨.failure 500 stage2_error, s2.2, [code1, code2]⟩
    else
      let code3 := stripCode (env.gen (analysis_prompt q))
      let s3 := stage3Run env q fs0
      if s3.1.stderr ≠ "" then
        ⟨.failure 500 stage3_error, s3.2, [code1, code2, code3]⟩
      else
        match env.loads s3.1.stdout with
        | some v => ⟨.success v, s3.2, [code1, code2, code3]⟩
        | none => ⟨.failure 500 parse_error, s3.2, [code1, code2, code3]⟩

/-- An `env` whose stage results differ only in their `exit_code` fields,
which are replaced by arbitrary values: used to state that the orchestrator
never reads an exit code. -/
def withExitCodes {J : Type} (env : OrchestratorEnv J) (f : String → Workspace → Int) :
    OrchestratorEnv J :=
  ⟨env.gen,
   fun c w => (⟨(env.sem c w).1.stdout, (env.sem c w).1.stderr, f c w⟩, (env.sem c w).2),
   env.loads⟩

/-! Concrete behaviours and environments used by witnesses and counterexamples. -/

/-- A behaviour on which the Docker client construction itself raises (the
daemon is unreachable) and every later call would succeed. -/
def bDaemonDown : DockerBehavior :=
  ⟨.error "Error while fetching server API version: connection refused",
    .ok (), none, .ok (), .ok (), .ok none, .ok "", .ok "", .ok ()⟩

/-- A behaviour on which the client is constructed but `client.images.get`
raises (the required image is absent); every other call would succeed. -/
def bImageMissing : DockerBehavior :=
  ⟨.ok (), .error "404 Client Error: image not found", none, .ok (), .ok (), .ok none,
    .ok "", .ok "", .ok ()⟩

/-- A behaviour on which every call succeeds: the executed code prints
`hello`, writes nothing to stderr, and the wait dictionary has no
`StatusCode` key. -/
def bAllOk : DockerBehavior :=
  ⟨.ok (), .ok (), none, .ok (), .ok (), .ok none, .ok "hello\n", .ok "", .ok ()⟩

/-- An orchestrator run in which stage 1 succeeds and creates both artifact
files, while stage 2 exits 0 but emits a warning on stderr. -/
def envStage2Warn : OrchestratorEnv Nat :=
  ⟨fun _ => "code",
   fun _ w =>
     if w.scrapedHtml then (⟨"", "FutureWarning: deprecated", 0⟩, w)
     else (⟨"", "", 0⟩, ⟨true, true, w.extra⟩),
   fun _ => none⟩

/-- An orchestrator run in which every stage succeeds silently but the final
stdout is not JSON. -/
def envParseFails : OrchestratorEnv Nat :=
  ⟨fun _ => "code", fun _ w => (⟨"not json", "", 0⟩, ⟨true, true, w.extra⟩),
   fun _ => none⟩

/-- An orchestrator run in which every stage writes nothing to stderr, creates
both artifact files, exits with the non-zero status 3, and prints `[42]`,
which parses. -/
def envAllOk : OrchestratorEnv Nat :=
  ⟨fun _ => "code", fun _ w => (⟨"[42]", "", 3⟩, ⟨true, true, w.extra⟩),
   fun s => if s = "[42]" then some 42 else none⟩

/-- An orchestrator run whose sandboxed stage-1 code keeps a counter file in
the mounted workspace: on a workspace without the scraped artifact (the state
every stage-1 execution sees) it extends the counter file's content by one
mark and creates both artifact files; later stages leave the workspace alone
and print the counter file's content, which the final parse accepts as is. -/
def envCounter : OrchestratorEnv String :=
  ⟨fun _ => "code",
   fun _ w =>
     if w.scrapedHtml = false then
       (⟨"", "", 0⟩,
        ⟨true, true, [("counter.txt", ((w.extra.lookup "counter.txt").getD "") ++ "x")]⟩)
     else
       (⟨(w.extra.lookup "counter.txt").getD "", "", 0⟩, w),
   fun s => some s⟩

/-! Fuel elimination for `pyReplaceF`, and the unfolding law of `pyReplace`. -/

/-- The fuel of `pyReplaceF` is irrelevant once it covers the scanned list. -/
theorem pyReplaceF_fuel_eq (p r : List Char) :
    ∀ (f₁ f₂ : Nat) (s : List Char), s.length ≤ f₁ → s.length ≤ f₂ →
      pyReplaceF p r f₁ s = pyReplaceF p r f₂ s := by
  intro f₁
  induction f₁ with
  | zero =>
    intro f₂ s h1 _
    have hs : s = [] := List.length_eq_zero.mp (Nat.le_zero.mp h1)
    subst hs
    cases f₂ <;> rfl
  | succ f ih =>
    intro f₂ s h1 h2
    cases s with
    | nil => cases f₂ <;> rfl
    | cons c s' =>
      cases f₂ with
      | zero => simp at h2
      | succ f₂' =>
        simp only [List.length_cons] at h1 h2
        simp only [pyReplaceF]
        by_cases h : p ≠ [] ∧ p <+: (c :: s')
        · rw [if_pos h, if_pos h]
          have hp : 0 < p.length := List.length_pos.mpr h.1
          have hd : ((c :: s').drop p.length).length ≤ s'.length := by
            simp only [List.length_drop, List.length_cons]
            omega
          exact congrArg (r ++ ·) (ih f₂' _ (by omega) (by omega))
        · rw [if_neg h, if_neg h]
          exact congrArg (c :: ·) (ih f₂' s' (by omega) (by omega))

/-- The one-step unfolding of `pyReplace` on a non-empty list. -/
theorem pyReplace_cons (p r : List Char) (c : Char) (s : List Char) :
    pyReplace p r (c :: s) =
      if p ≠ [] ∧ p <+: (c :: s) then r ++ pyReplace p r ((c :: s).drop p.length)
      else c :: pyReplace p r s := by
  show pyReplaceF p r (c :: s).length (c :: s) = _
  rw [List.length_cons]
  simp only [pyReplaceF]
  by_cases h : p ≠ [] ∧ p <+: (c :: s)
  · rw [if_pos h, if_pos h]
    have hp : 0 < p.length := List.length_pos.mpr h.1
    refine congrArg (r ++ ·) (pyReplaceF_fuel_eq p r _ _ _ ?_ (Nat.le_refl _))
    simp only [List.length_drop, List.length_cons]
    omega
  · rw [if_neg h, if_neg h]
    rfl

/-- A list with no occurrence of the (non-empty) pattern is left unchanged. -/
theorem pyReplace_no_occurrence (p r : List Char) :
    ∀ s, ¬ (p <:+: s) → pyReplace p r s = s := by
  intro s
  induction s with
  | nil => intro _; rfl
  | cons c s' ih =>
    intro h
    rw [pyReplace_cons, if_neg, ih (fun hx => h (List.infix_cons hx))]
    rintro ⟨-, hpre⟩
    exact h hpre.isInfix

/-- An occurrence of the pattern at the head of the list is replaced. -/
theorem pyReplace_head_match (p r s : List Char) (hp : p ≠ []) :
    pyReplace p r (p ++ s) = r ++ pyReplace p r s := by
  cases p with
  | nil => exact absurd rfl hp
  | cons a p' =>
    rw [List.cons_append, pyReplace_cons, if_pos]
    · have hd : (a :: (p' ++ s)).drop (a :: p').length = s := by
        rw [show a :: (p' ++ s) = (a :: p') ++ s from rfl]
        exact List.drop_left _ _
      rw [hd]
    · refine ⟨hp, ?_⟩
      rw [show a :: (p' ++ s) = (a :: p') ++ s from rfl]
      exact List.prefix_append _ _

/-- The fence marker, character by character. -/
theorem fence_eq : fence = bq :: bq :: bq :: [] := by decide

/-- The opening fence marker, character by character. -/
theorem fencePy_eq :
    fencePy = bq :: bq :: bq :: 'p' :: 'y' :: 't' :: 'h' :: 'o' :: 'n' :: [] := by decide

/-- A fence-free body followed by a newline and the closing fence contains no
occurrence of the opening marker (the nine characters of the opening marker
never fit: any occurrence would put three consecutive backticks inside the
body). -/
theorem no_fencePy_inside (body : List Char) (h : ¬ (fence <:+: body)) :
    ¬ (fencePy <:+: (body ++ '\n' :: fence)) := by
  induction body with
  | nil =>
    simp only [List.nil_append]
    decide
  | cons c b ih =>
    intro hin
    have hb : ¬ (fence <:+: b) := fun hx => h (List.infix_cons hx)
    rw [List.cons_append] at hin
    rcases List.infix_cons_iff.mp hin with hpre | hinf
    · rw [fencePy_eq, List.cons_prefix_cons] at hpre
      obtain ⟨hc, hpre⟩ := hpre
      cases b with
      | nil =>
        rw [List.nil_append, List.cons_prefix_cons] at hpre
        exact absurd hpre.1 (by decide)
      | cons d b' =>
        rw [List.cons_append, List.cons_prefix_cons] at hpre
        obtain ⟨hd, hpre⟩ := hpre
        cases b' with
        | nil =>
          rw [List.nil_append, List.cons_prefix_cons] at hpre
          exact absurd hpre.1 (by decide)
        | cons e b'' =>
          rw [List.cons_append, List.cons_prefix_cons] at hpre
          obtain ⟨he, -⟩ := hpre
          refine h (List.IsPrefix.isInfix ?_)
          rw [fence_eq]
          simp only [List.cons_prefix_cons]
          exact ⟨hc, hd, he, List.nil_prefix⟩
    · exact ih hb hinf

/-- Scanning a fence-free body followed by a newline and the closing fence,
`pyReplace` removes exactly the closing fence. -/
theorem replace_fence_tail (body : List Char) (h : ¬ (fence <:+: body)) :
    pyReplace fence [] (body ++ '\n' :: fence) = body ++ ['\n'] := by
  induction body with
  | nil =>
    simp only [List.nil_append]
    decide
  | cons c b ih =>
    have hb : ¬ (fence <:+: b) := fun hx => h (List.infix_cons hx)
    rw [List.cons_append, pyReplace_cons, if_neg, ih hb, List.cons_append]
    rintro ⟨-, hpre⟩
    rw [fence_eq, List.cons_prefix_cons] at hpre
    obtain ⟨hc, hpre⟩ := hpre
    cases b with
    | nil =>
      rw [List.nil_append, List.cons_prefix_cons] at hpre
      exact absurd hpre.1 (by decide)
    | cons d b' =>
      rw [List.cons_append, List.cons_prefix_cons] at hpre
      obtain ⟨hd, hpre⟩ := hpre
      cases b' with
      | nil =>
        rw [List.nil_append, List.cons_prefix_cons] at hpre
        exact absurd hpre.1 (by decide)
      | cons e b'' =>
        rw [List.cons_append, List.cons_prefix_cons] at hpre
        obtain ⟨he, -⟩ := hpre
        refine h (List.IsPrefix.isInfix ?_)
        rw [fence_eq]
        simp only [List.cons_prefix_cons]
        exact ⟨hc, hd, he, List.nil_prefix⟩

/-- Stripping drops a leading whitespace character. -/
theorem pyStrip_cons_space (c : Char) (s : List Char) (hc : isPySpace c = true) :
    pyStrip (c :: s) = pyStrip s := by
  simp [pyStrip, List.dropWhile_cons, hc]

/-- Stripping drops a trailing newline. -/
theorem pyStrip_append_newline (s : List Char) : pyStrip (s ++ ['\n']) = pyStrip s := by
  unfold pyStrip
  rw [List.dropWhile_append]
  by_cases hE : (s.dropWhile isPySpace).isEmpty
  · rw [if_pos hE]
    have h2 : s.dropWhile isPySpace = [] := by
      simpa using hE
    rw [h2]
    decide
  · rw [if_neg hE]
    rw [List.reverse_append]
    have h3 : (['\n'] : List Char).reverse = ['\n'] := rfl
    rw [h3, List.singleton_append, List.dropWhile_cons]
    simp [show isPySpace '\n' = true from rfl]

/-- The fence-stripping normalization, applied to a fenced block wrapping a
fence-free body, yields exactly the body with surrounding whitespace trimmed. -/
theorem stripCodeL_fenced (body : List Char) (h : ¬ (fence <:+: body)) :
    stripCodeL (fencePy ++ '\n' :: (body ++ '\n' :: fence)) = pyStrip body := by
  unfold stripCodeL
  rw [pyReplace_head_match _ _ _ (by rw [fencePy_eq]; simp)]
  rw [List.nil_append]
  have hN : ¬ (fencePy <:+: ('\n' :: (body ++ '\n' :: fence))) := by
    intro hin
    rcases List.infix_cons_iff.mp hin with hpre | hinf
    · rw [fencePy_eq, List.cons_prefix_cons] at hpre
      exact absurd hpre.1 (by decide)
    · exact no_fencePy_inside body h hinf
  rw [pyReplace_no_occurrence _ _ _ hN]
  have h2 : ¬ (fence <:+: ('\n' :: body)) := by
    intro hin
    rcases List.infix_cons_iff.mp hin with hpre | hinf
    · rw [fence_eq, List.cons_prefix_cons] at hpre
      exact absurd hpre.1 (by decide)
    · exact h hinf
  have h3 := replace_fence_tail ('\n' :: body) h2
  rw [List.cons_append] at h3
  rw [h3, List.cons_append] at *
  rw [pyStrip_cons_space _ _ (by decide)]
  exact pyStrip_append_newline body

/-- The caller-visible result of a run in terms of the client construction and
the try body: the constructor exception escapes, and otherwise the try body's
result is returned unchanged by the finally clause. -/
theorem run_result_char (w : World) (b : DockerBehavior) (code : String) :
    (run_code_in_sandbox w b code).result =
      match b.fromEnv with
      | .error e => .error e
      | .ok _ => .ok (runBody w b code).result := by
  unfold run_code_in_sandbox
  cases hfe : b.fromEnv <;> cases htd : b.teardown <;>
      by_cases h : (runBody w b code).created <;>
    simp [hfe, htd, h]

/-- Once the client is constructed, the returned result is the one computed
by the try body: no exception escapes and the finally clause never alters it. -/
theorem run_result_eq_body (w : World) (b : DockerBehavior) (code : String)
    (henv : b.fromEnv = .ok ()) :
    (run_code_in_sandbox w b code).result = .ok (runBody w b code).result := by
  unfold run_code_in_sandbox
  rw [henv]
  cases htd : b.teardown <;> by_cases h : (runBody w b code).created <;> simp [htd, h]

/-- Once the client is constructed, the trace of a run in terms of the try
body: teardown is attempted once exactly when a container object was
created. -/
theorem run_trace_eq (w : World) (b : DockerBehavior) (code : String)
    (henv : b.fromEnv = .ok ()) :
    (run_code_in_sandbox w b code).trace =
      ⟨if (runBody w b code).created then 1 else 0, (runBody w b code).created,
        (runBody w b code).conflict, (runBody w b code).config⟩ := by
  unfold run_code_in_sandbox
  rw [henv]
  cases htd : b.teardown <;> by_cases h : (runBody w b code).created <;> simp [htd, h]

/-- The name-conflict branch of container creation is unreachable: the stale
container was reclaimed (or absent) before creation. -/
theorem run_conflict_false (w : World) (b : DockerBehavior) (code : String) :
    (run_code_in_sandbox w b code).trace.conflict = false := by
  cases hfe : b.fromEnv with
  | error e => simp [run_code_in_sandbox, hfe]
  | ok u =>
    rw [run_trace_eq w b code hfe]
    obtain ⟨ce⟩ := w
    obtain ⟨fe, ig, ge, sr, cr, wt, lo, le, td⟩ := b
    cases ig <;> cases ce <;> cases ge <;> cases sr <;> cases cr <;> cases wt <;>
        cases lo <;> cases le <;>
      simp [runBody]

/-- Whenever `containers.run` is called, it is called with the fixed
configuration. -/
theorem runBody_config (w : World) (b : DockerBehavior) (code : String) :
    (runBody w b code).config = none ∨ (runBody w b code).config = some (sandboxConfig code) := by
  obtain ⟨ce⟩ := w
  obtain ⟨fe, ig, ge, sr, cr, wt, lo, le, td⟩ := b
  cases ig <;> cases ce <;> cases ge <;> cases sr <;> cases cr <;> cases wt <;>
      cases lo <;> cases le <;>
    simp [runBody]

/-- C1 counterexample: `client = docker.from_env()` (code_executor.py line 14)
stands outside the `try` that begins at line 24, so when the Docker client
cannot be constructed (e.g. the daemon is unreachable) the exception escapes
`run_code_in_sandbox` instead of being converted into the normalized
`{stdout: "", stderr: ..., exit_code: -1}` result - refuting "never lets an
exception escape" and, with it, "a result object is always returned". -/
theorem client_construction_exception_escapes :
    (run_code_in_sandbox ⟨false⟩ bDaemonDown "print(1)").result
      = .error "Error while fetching server API version: connection refused" := rfl

/-- C1 (amended): once the Docker client is constructed (`docker.from_env()`
at line 14 succeeds; that call stands outside the `try`/`except`, and its
failure escapes the function as a raised exception), no exception escapes: the
call returns a well-formed result, any failure of a later Docker call (image
absent, creation failure, wait or log-retrieval failure) is converted into
`{stdout: "", stderr: <failure description>, exit_code: -1}`, and `exit_code =
-1` holds exactly when such a runner-internal failure occurred - never for the
executed code's own (non-negative) exit status. -/
theorem runner_failure_normalized (w : World) (b : DockerBehavior) (code : String)
    (henv : b.fromEnv = .ok ()) :
    ((run_code_in_sandbox w b code).result = .ok (runBody w b code).result)
    ∧ ((runBody w b code).result.exit_code = -1 ↔ internalFailure w b = true)
    ∧ (internalFailure w b = true → (runBody w b code).result = failRes (failMsg w b)) := by
  refine ⟨run_result_eq_body w b code henv, ?_⟩
  obtain ⟨ce⟩ := w
  obtain ⟨fe, ig, ge, sr, cr, wt, lo, le, td⟩ := b
  cases ig <;> cases ce <;> cases ge <;> cases sr <;> cases cr <;> cases wt <;>
      cases lo <;> cases le <;>
    simp [runBody, internalFailure, failMsg, restFailMsg, failRes]

/-- C1 witness: with the client constructed but the image lookup raising, the
call returns (does not raise) the normalized failure result. -/
theorem runner_failure_normalized_witness :
    internalFailure ⟨false⟩ bImageMissing = true
    ∧ (run_code_in_sandbox ⟨false⟩ bImageMissing "print(1)").result
        = .ok (failRes (failMsg ⟨false⟩ bImageMissing)) := by
  have h := runner_failure_normalized ⟨false⟩ bImageMissing "print(1)" rfl
  exact ⟨rfl, by rw [h.1, h.2.2 rfl]⟩

/-- C2 counterexample: when `client.images.get` raises (the image is absent),
the invocation ends without any teardown attempt - `container` is still `None`,
so the `finally` clause does not call `remove` - refuting "teardown is
attempted exactly once on every exit path". -/
theorem teardown_skipped_when_image_missing :
    (run_code_in_sandbox ⟨false⟩ bImageMissing "print(1)").trace.teardownAttempts = 0 := rfl

/-- C2 (amended): teardown is attempted exactly once on every exit path on
which the container was created (normal return, executed-code failure, or a
runner-internal exception after creation), and zero times when creation never
happened; a teardown failure is only logged and never changes the returned
result. -/
theorem teardown_once_per_creation (w : World) (b : DockerBehavior) (code : String)
    (td' : Except String Unit) :
    ((run_code_in_sandbox w b code).trace.teardownAttempts
        = if (run_code_in_sandbox w b code).trace.containerCreated then 1 else 0)
    ∧ ((run_code_in_sandbox w
          ⟨b.fromEnv, b.imagesGet, b.containersGetErr, b.staleRemove, b.create, b.wait,
            b.logsStdout, b.logsStderr, td'⟩ code).result
        = (run_code_in_sandbox w b code).result) := by
  constructor
  · cases hfe : b.fromEnv with
    | error e => simp [run_code_in_sandbox, hfe]
    | ok u => rw [run_trace_eq w b code hfe]
  · rw [run_result_char w
          ⟨b.fromEnv, b.imagesGet, b.containersGetErr, b.staleRemove, b.create, b.wait,
            b.logsStdout, b.logsStderr, td'⟩ code,
        run_result_char w b code]
    rfl

/-- C3: container creation never fails with a name conflict: the reserved name
is looked up before provisioning, a found stale container is forcibly removed,
and absence of a prior container is not an error. In particular two consecutive
calls under the same runner identity never conflict, and when no container
exists the stale-removal oracle is never consulted. -/
theorem stale_container_reclaimed :
    (∀ (w : World) (b : DockerBehavior) (code : String),
        (run_code_in_sandbox w b code).trace.conflict = false)
    ∧ (∀ (w : World) (b₁ b₂ : DockerBehavior) (c₁ c₂ : String),
        (run_code_in_sandbox (run_code_in_sandbox w b₁ c₁).world b₂ c₂).trace.conflict = false)
    ∧ (∀ (b : DockerBehavior) (code : String) (sr' : Except String Unit),
        run_code_in_sandbox ⟨false⟩
            ⟨b.fromEnv, b.imagesGet, b.containersGetErr, sr', b.create, b.wait, b.logsStdout,
              b.logsStderr, b.teardown⟩ code
          = run_code_in_sandbox ⟨false⟩ b code) :=
  ⟨fun w b code => run_conflict_false w b code,
   fun _ _ b₂ _ c₂ => run_conflict_false _ b₂ c₂,
   fun _ _ _ => rfl⟩

/-- C5: when every Docker call succeeds (the sandboxed process terminated
normally), the result carries the separately retrieved stdout and stderr texts
and the exit code reported by `wait` (0 when the wait dictionary lacks a
`StatusCode` key). -/
theorem normal_termination_result (w : World) (b : DockerBehavior) (code : String)
    (st : Option Nat) (outText errText : String)
    (henv : b.fromEnv = .ok ())
    (himg : b.imagesGet = .ok ())
    (hstale : w.containerExists = false ∨ (b.containersGetErr = none ∧ b.staleRemove = .ok ()))
    (hcr : b.create = .ok ()) (hwait : b.wait = .ok st)
    (hout : b.logsStdout = .ok outText) (herr : b.logsStderr = .ok errText) :
    (run_code_in_sandbox w b code).result = .ok ⟨outText, errText, Int.ofNat (st.getD 0)⟩ := by
  rw [run_result_eq_body w b code henv]
  obtain ⟨ce⟩ := w
  rcases hstale with hce | ⟨hge, hsr⟩
  · cases ce
    · simp [runBody, himg, hcr, hwait, hout, herr]
    · exact absurd hce (by simp)
  · cases ce
    · simp [runBody, himg, hcr, hwait, hout, herr]
    · simp [runBody, himg, hge, hsr, hcr, hwait, hout, herr]

/-- C5 witness: code that prints `hello` and exits cleanly, with no
`StatusCode` reported, yields that exact stdout, an empty stderr and exit
code 0. -/
theorem normal_termination_result_witness :
    (run_code_in_sandbox ⟨false⟩ bAllOk "print('hello')").result = .ok ⟨"hello\n", "", 0⟩ :=
  normal_termination_result ⟨false⟩ bAllOk "print('hello')" none "hello\n" ""
    rfl rfl (Or.inl rfl) rfl rfl rfl rfl

/-- C6 counterexample: the host path bound into the container is the
hard-coded Windows literal of code_executor.py line 21 - not a caller-supplied
parameter: `run_code_in_sandbox` takes only the code string, and the path it
mounts differs from the orchestrator's own workspace directory. -/
theorem workspace_path_not_caller_supplied :
    ((run_code_in_sandbox ⟨false⟩ bAllOk "print(1)").trace.createConfig.map CreateConfig.hostPath
        = some workspace_path)
    ∧ workspace_path ≠ workspace_dir :=
  ⟨rfl, by decide⟩

/-- C6 (amended): `run_code_in_sandbox` takes only the code string; whenever it
reaches container creation it binds the fixed hard-coded host path read-write
at the fixed mount point `/app/workspace`, supplying the code as the
entrypoint's process argument `["python", "-c", code]` rather than writing it
to a shared file. -/
theorem sandbox_create_config_fixed (w : World) (b : DockerBehavior) (code : String)
    (c : CreateConfig)
    (h : (run_code_in_sandbox w b code).trace.createConfig = some c) :
    c = ⟨python_image, ["python", "-c", code], container_name, true, false,
          workspace_path, bind_path, "rw"⟩ := by
  cases hfe : b.fromEnv with
  | error e =>
    rw [show (run_code_in_sandbox w b code).trace = ⟨0, false, false, none⟩ from by
          simp [run_code_in_sandbox, hfe]] at h
    simp at h
  | ok u =>
    have hc : (runBody w b code).config = some c := by
      rw [run_trace_eq w b code hfe] at h
      simpa using h
    rcases runBody_config w b code with h0 | h0
    · rw [h0] at hc
      cases hc
    · rw [h0] at hc
      injection hc with hc
      subst hc
      rfl

/-- C6 witness: the configuration of a concrete successful run, evaluated. -/
theorem sandbox_create_config_witness :
    sandboxConfig "x" = ⟨python_image, ["python", "-c", "x"], container_name, true, false,
        workspace_path, bind_path, "rw"⟩ :=
  sandbox_create_config_fixed ⟨false⟩ bAllOk "x" (sandboxConfig "x") rfl

/-- C4: a stage is treated as failed exactly when its stderr is non-empty or
its expected output file is absent (stage 3 has no expected file), whatever
its exit code; on such a failure the endpoint answers the stage-specific error
with HTTP status 500 and no later stage's code is passed to the runner. -/
theorem stage_failure_strictness {J : Type} (env : OrchestratorEnv J) (q : String)
    (fs0 : Workspace) :
    (((create_analysis env q fs0).response = .failure 500 stage1_error) ↔ stage1Failed env fs0)
    ∧ (((create_analysis env q fs0).response = .failure 500 stage2_error)
        ↔ (¬ stage1Failed env fs0 ∧ stage2Failed env fs0))
    ∧ (((create_analysis env q fs0).response = .failure 500 stage3_error)
        ↔ (¬ stage1Failed env fs0 ∧ ¬ stage2Failed env fs0 ∧ stage3Failed env q fs0))
    ∧ (stage1Failed env fs0 →
        (create_analysis env q fs0).executedCodes = [stripCode (env.gen sampler_prompt)])
    ∧ (¬ stage1Failed env fs0 → stage2Failed env fs0 →
        (create_analysis env q fs0).executedCodes
          = [stripCode (env.gen sampler_prompt), stripCode (env.gen scraper_prompt)]) := by
  by_cases h1 : (stage1Run env fs0).1.stderr ≠ "" ∨ (stage1Run env fs0).2.scrapedHtml = false <;>
  by_cases h2 : (stage2Run env fs0).1.stderr ≠ "" ∨ (stage2Run env fs0).2.filmsCsv = false <;>
  by_cases h3 : (stage3Run env q fs0).1.stderr ≠ "" <;>
  rcases hL : env.loads (stage3Run env q fs0).1.stdout with _ | v <;>
  simp +decide [create_analysis, stage1Failed, stage2Failed, stage3Failed, h1, h2, h3, hL,
    stage1_error, stage2_error, stage3_error]

/-- C4 witness: a run whose stage 1 succeeds and whose stage 2 exits 0 yet
writes a warning to stderr is failed at stage 2 with the stage-2 error, and
stage 3 is never invoked. -/
theorem stage_failure_strictness_witness :
    ¬ stage1Failed envStage2Warn ⟨false, false, []⟩
    ∧ stage2Failed envStage2Warn ⟨false, false, []⟩
    ∧ (stage2Run envStage2Warn ⟨false, false, []⟩).1.exit_code = 0
    ∧ (create_analysis envStage2Warn "q" ⟨false, false, []⟩).response = .failure 500 stage2_error
    ∧ (create_analysis envStage2Warn "q" ⟨false, false, []⟩).executedCodes
        = [stripCode (envStage2Warn.gen sampler_prompt),
           stripCode (envStage2Warn.gen scraper_prompt)] := by
  have h1 : ¬ stage1Failed envStage2Warn ⟨false, false, []⟩ := by
    unfold stage1Failed
    decide
  have h2 : stage2Failed envStage2Warn ⟨false, false, []⟩ := by
    unfold stage2Failed
    decide
  exact ⟨h1, h2, by decide,
    ((stage_failure_strictness envStage2Warn "q" ⟨false, false, []⟩).2.1).mpr ⟨h1, h2⟩,
    (stage_failure_strictness envStage2Warn "q" ⟨false, false, []⟩).2.2.2.2 h1 h2⟩

/-- C7: when no stage failed, the final stage's stdout is parsed as JSON: the
parsed value is forwarded verbatim as the response body, and a parse failure
terminates the pipeline with its own 500 error, distinct from every stage
execution failure message. -/
theorem final_stdout_json_parsing {J : Type} (env : OrchestratorEnv J) (q : String)
    (fs0 : Workspace)
    (h1 : ¬ stage1Failed env fs0) (h2 : ¬ stage2Failed env fs0)
    (h3 : ¬ stage3Failed env q fs0) :
    (∀ v, env.loads (stage3Run env q fs0).1.stdout = some v →
        (create_analysis env q fs0).response = .success v)
    ∧ (env.loads (stage3Run env q fs0).1.stdout = none →
        (create_analysis env q fs0).response = .failure 500 parse_error)
    ∧ parse_error ≠ stage1_error ∧ parse_error ≠ stage2_error ∧ parse_error ≠ stage3_error := by
  simp only [stage1Failed] at h1
  simp only [stage2Failed] at h2
  simp only [stage3Failed] at h3
  refine ⟨?_, ?_, by decide, by decide, by decide⟩
  · intro v hv
    simp [create_analysis, h1, h2, h3, hv]
  · intro hv
    simp [create_analysis, h1, h2, h3, hv]

/-- C7 witness: a run whose stages all pass silently but whose final stdout is
not JSON ends with the parse error and status 500. -/
theorem final_stdout_json_parsing_witness :
    (create_analysis envParseFails "q" ⟨false, false, []⟩).response = .failure 500 parse_error := by
  have h1 : ¬ stage1Failed envParseFails ⟨false, false, []⟩ := by
    unfold stage1Failed
    decide
  have h2 : ¬ stage2Failed envParseFails ⟨false, false, []⟩ := by
    unfold stage2Failed
    decide
  have h3 : ¬ stage3Failed envParseFails "q" ⟨false, false, []⟩ := by
    unfold stage3Failed
    decide
  exact (final_stdout_json_parsing envParseFails "q" ⟨false, false, []⟩ h1 h2 h3).2.1 rfl

/-- C8 counterexample: the pipeline deletes only the two artifact files at the
start of a run (main.py lines 49-53); every other file in the read-write
mounted workspace persists across runs and is visible to the next run's
executed code. With the same question and the same generator outputs, a
sandbox whose stage-1 code keeps a counter file in the workspace gives the
second run a different response from the first - refuting "the only cross-run
state is the set of workspace artifact files, and those are deleted at the
start of each run". -/
theorem pipeline_state_leaks_across_runs :
    (create_analysis envCounter "q"
        ((create_analysis envCounter "q" ⟨false, false, []⟩).workspace)).response
      ≠ (create_analysis envCounter "q" ⟨false, false, []⟩).response := by decide

/-- C8 (amended): only the two artifact files are deleted at the start of each
run, before any stage executes (the cleaned workspace has both artifacts
absent and every other file untouched), so the response never depends on the
artifacts' initial state: two runs whose starting workspaces agree outside the
two artifact files - in particular two consecutive runs whose executed code
writes nothing to the workspace beyond the artifacts - produce identical
responses. Workspace files other than the two artifacts are genuine cross-run
state. -/
theorem pipeline_idempotent_modulo_extra {J : Type} (env : OrchestratorEnv J) (q : String)
    (fs0 fs1 : Workspace) (hx : fs0.extra = fs1.extra) :
    create_analysis env q fs0 = create_analysis env q fs1
    ∧ clean_workspace fs0 = ⟨false, false, fs0.extra⟩ := by
  have key : clean_workspace fs0 = clean_workspace fs1 := by
    simp [clean_workspace, hx]
  constructor
  · simp only [create_analysis, stage1Run, stage2Run, stage3Run, key]
  · rfl

/-- C8 witness: with a sandbox that leaves nothing in the workspace beyond the
artifacts, runs starting from different artifact states are identical. -/
theorem pipeline_idempotent_modulo_extra_witness :
    create_analysis envAllOk "q" ⟨true, false, []⟩
      = create_analysis envAllOk "q" ⟨false, true, []⟩ :=
  (pipeline_idempotent_modulo_extra envAllOk "q" ⟨true, false, []⟩ ⟨false, true, []⟩ rfl).1

/-- C9: every code string the orchestrator passes to the sandbox runner is the
corresponding generator response with the fence markers stripped (the executed
codes are, in order, a prefix of the three stripped responses), and for a
response that is a fenced block wrapping a fence-free body the executed code
is exactly that body with surrounding whitespace trimmed. -/
theorem code_fence_stripping :
    (∀ (J : Type) (env : OrchestratorEnv J) (q : String) (fs0 : Workspace),
        (create_analysis env q fs0).executedCodes <+:
          [stripCode (env.gen sampler_prompt), stripCode (env.gen scraper_prompt),
           stripCode (env.gen (analysis_prompt q))])
    ∧ (∀ body : List Char, ¬ (fence <:+: body) →
        stripCodeL (fencePy ++ '\n' :: (body ++ '\n' :: fence)) = pyStrip body) := by
  constructor
  · intro Jty env q fs0
    by_cases h1 : (stage1Run env fs0).1.stderr ≠ "" ∨ (stage1Run env fs0).2.scrapedHtml = false <;>
    by_cases h2 : (stage2Run env fs0).1.stderr ≠ "" ∨ (stage2Run env fs0).2.filmsCsv = false <;>
    by_cases h3 : (stage3Run env q fs0).1.stderr ≠ "" <;>
    rcases hL : env.loads (stage3Run env q fs0).1.stdout with _ | v <;>
    simp [create_analysis, h1, h2, h3, hL]
  · exact stripCodeL_fenced

/-- C9 witness: stripping a fenced block around `print(1)` yields exactly
`print(1)`. -/
theorem code_fence_stripping_witness :
    (¬ (fence <:+: "print(1)".toList))
    ∧ stripCodeL (fencePy ++ '\n' :: ("print(1)".toList ++ '\n' :: fence))
        = "print(1)".toList := by
  have h : ¬ (fence <:+: "print(1)".toList) := by decide
  refine ⟨h, ?_⟩
  rw [code_fence_stripping.2 "print(1)".toList h]
  decide

/-- C10: the orchestrator never inspects a stage result's exit code: replacing
every stage's exit code by arbitrary values changes nothing about the run, and
when every stage has empty stderr, both artifact files exist, and the final
stdout parses, the pipeline succeeds even with non-zero exit codes. -/
theorem exit_code_never_inspected {J : Type} (env : OrchestratorEnv J) (q : String)
    (fs0 : Workspace) :
    (∀ f : String → Workspace → Int,
        create_analysis (withExitCodes env f) q fs0 = create_analysis env q fs0)
    ∧ (∀ v : J,
        (stage1Run env fs0).1.stderr = "" → (stage1Run env fs0).2.scrapedHtml = true →
        (stage2Run env fs0).1.stderr = "" → (stage2Run env fs0).2.filmsCsv = true →
        (stage3Run env q fs0).1.stderr = "" →
        env.loads (stage3Run env q fs0).1.stdout = some v →
        (create_analysis env q fs0).response = .success v) := by
  constructor
  · intro f
    rfl
  · intro v h1 h2 h3 h4 h5 h6
    simp [create_analysis, h1, h2, h3, h4, h5, h6]

/-- C10 witness: a run whose stages all exit with the non-zero status 3 but
pass the stderr and artifact checks succeeds with the parsed final answer. -/
theorem exit_code_never_inspected_witness :
    (stage1Run envAllOk ⟨false, false, []⟩).1.exit_code = 3
    ∧ (create_analysis envAllOk "q" ⟨false, false, []⟩).response = .success 42 := by
  refine ⟨by decide, ?_⟩
  exact (exit_code_never_inspected envAllOk "q" ⟨false, false, []⟩).2 42
    (by decide) (by decide) (by decide) (by decide) (by decide) (by decide)
